import Mathlib

/-!
# Formal model of the NaviSound orchestration core

A shallow embedding, in Lean 4, of the parts of the NaviSound repository that
the verified claims are about:

* `backend/agents/context_manager.py`  — the bounded context-window manager
  (`add_observation`, `build_context_string`);
* `backend/agents/orchestrator.py`     — the per-frame coordinator: fan-out
  result cleaning, schema normalisation, hazard consolidation, confidence
  clamping, and voice-command routing;
* `backend/agents/agents/hazard_agent.py` — the rolling temporal hazard
  history;
* `backend/agents/spatial_memory.py`   — `record_landmark` effect ordering and
  `recall` evidence assembly.

Python dictionaries of heterogeneous JSON-ish values are modelled by the
inductive type `JVal`; dict objects are association lists with first-match
lookup (Python dict keys are unique, so first-match lookup agrees with dict
lookup).  Machine-level aspects that the claims do not touch (Python raising
`TypeError` on iterating a non-list, comparing a string with a float, etc.)
are totalised and noted at the definition concerned.  Numbers are modelled by
`ℚ`; every numeric operation used by the modelled code (comparison, `min`) is
exact on floats, so `ℚ` is faithful for them.
-/

set_option autoImplicit false

namespace NaviSound

/-- A JSON-like Python value: `None`, bool, number, string, list or dict. -/
inductive JVal where
  | null
  | b (bv : Bool)
  | num (q : ℚ)
  | s (sv : String)
  | arr (items : List JVal)
  | obj (fields : List (String × JVal))

/-- A Python dict with string keys, as an association list (keys unique). -/
abbrev JObj := List (String × JVal)

/-- Dict lookup: `d[k]` if present.  First match; Python dict keys are unique. -/
def jget : JObj → String → Option JVal
  | [], _ => none
  | (k2, v) :: rest, k => if k2 = k then some v else jget rest k

/-- Python `d.get(k, default)`. -/
def jgetD (o : JObj) (k : String) (d : JVal) : JVal := (jget o k).getD d

/-- Python `d.get(k)` — returns `None` when the key is absent. -/
def jget1 (o : JObj) (k : String) : JVal := jgetD o k .null

/-- Python truthiness of a value (`bool(v)`). -/
def truthy : JVal → Bool
  | .null => false
  | .b bv => bv
  | .num q => q != 0
  | .s sv => sv != ""
  | .arr items => !items.isEmpty
  | .obj fields => !fields.isEmpty

/-- Python `a or b`: `a` if truthy, else `b`. -/
def pyOr (a bv : JVal) : JVal := if truthy a then a else bv

/-- View a value as a dict; non-dicts give `[]`.  (Python would raise an
`AttributeError` on `.get` of a non-dict; that path is caught by
`orchestrate_with_fallback` and is outside the claims considered here.) -/
def asObj : JVal → JObj
  | .obj fields => fields
  | _ => []

/-- View a value as a list; non-lists give `[]`.  (Python's `for … in` over a
non-list either iterates dict keys or raises; those paths are outside the
claims considered here.) -/
def asArr : JVal → List JVal
  | .arr items => items
  | _ => []

/-- Keep only the dict elements of a list, as in
`for h in …: if isinstance(h, dict): …`. -/
def dictItems (items : List JVal) : List JObj :=
  items.filterMap fun v => match v with
    | .obj fields => some fields
    | _ => none

/-!
## Orchestrator merge (`orchestrator.py`, `orchestrate`, video_frame branch)

Lines 329–396 of `backend/agents/orchestrator.py`: the NORMALIZE/RESPOND
steps that merge the three cleaned capability results into the canonical
response.
-/

/-- One consolidated hazard from the hazard capability's imminent-hazards
list (`orchestrator.py` lines 337–346). -/
def mapImminent (h : JObj) : JObj :=
  [("type", jgetD h "type" (jgetD h "name" (.s "obstacle"))),
   ("urgency", jgetD h "urgency" (.s "medium")),
   ("direction", jgetD h "direction" (jgetD h "location" (.s ""))),
   ("distance_feet", jget1 h "distance_feet"),
   ("speed_ft_per_sec", jget1 h "speed_ft_per_sec"),
   ("bounding_box", jget1 h "bounding_box")]

/-- One consolidated hazard from the scene capability's `obstacles` list
(`orchestrator.py` lines 347–355). -/
def mapObstacle (obs : JObj) : JObj :=
  [("type", jgetD obs "name" (jgetD obs "type" (.s "obstacle"))),
   ("urgency", jgetD obs "urgency" (.s "medium")),
   ("direction", jgetD obs "location" (jgetD obs "direction" (.s ""))),
   ("distance_feet", jget1 obs "distance_feet"),
   ("bounding_box", jget1 obs "bounding_box")]

/-- One consolidated hazard from the scene capability's `floor_hazards` list
(`orchestrator.py` lines 356–363). -/
def mapFloorHazard (fh : JObj) : JObj :=
  [("type", jgetD fh "type" (.s "floor_hazard")),
   ("urgency", jgetD fh "urgency" (.s "high")),
   ("direction", jgetD fh "location" (.s "")),
   ("bounding_box", jget1 fh "bounding_box")]

/-- The iterable chosen by
`hazard_result.get("imminent_hazards", hazard_result.get("hazards", []))`. -/
def hazardSourceList (hazard_result : JObj) : List JVal :=
  asArr (jgetD hazard_result "imminent_hazards" (jgetD hazard_result "hazards" (.arr [])))

/-- Hazard-capability contribution to the consolidated hazards list. -/
def hazardsFromHazard (hazard_result : JObj) : List JObj :=
  (dictItems (hazardSourceList hazard_result)).map mapImminent

/-- Scene-capability `obstacles` contribution to the consolidated list. -/
def hazardsFromObstacles (scene_result : JObj) : List JObj :=
  (dictItems (asArr (jgetD scene_result "obstacles" (.arr [])))).map mapObstacle

/-- Scene-capability `floor_hazards` contribution to the consolidated list. -/
def hazardsFromFloor (scene_result : JObj) : List JObj :=
  (dictItems (asArr (jgetD scene_result "floor_hazards" (.arr [])))).map mapFloorHazard

/-- `all_hazards` of `orchestrator.py` lines 336–363: hazard capability first,
then scene obstacles, then scene floor hazards, no deduplication. -/
def allHazards (scene_result hazard_result : JObj) : List JObj :=
  hazardsFromHazard hazard_result ++ hazardsFromObstacles scene_result
    ++ hazardsFromFloor scene_result

/-- `orchestrator.py` lines 365–368:
`min(scene_result.get("confidence", scene_result.get("confidence_0to1", 0.85)), 0.95)`,
as a function of the numeric values found under the two keys. -/
def mergedConfidence (c c01 : Option ℚ) : ℚ :=
  min (c.getD (c01.getD (85 / 100))) (95 / 100)

/-- The numeric value under a key, when the key holds a number.  (A present
but non-numeric value would make Python's `min` raise; outside the claims.) -/
def jnum (o : JObj) (k : String) : Option ℚ :=
  match jget o k with
  | some (.num q) => some q
  | _ => none

/-- The canonical per-frame response assembled by the video_frame branch
(`orchestrator.py` lines 376–388).  `context_stats` and `frame_count` are
session bookkeeping passed through unchanged and are modelled as opaque
parameters of `mergeVideoFrame`. -/
structure NavResponse where
  direction : JVal
  distance_feet : JVal
  hazards : List JObj
  predicted_hazards : JVal
  confidence : ℚ
  audio : JObj
  summary : JVal
  spatial_features : JVal
  hazard_action : JVal
  context_stats : JVal
  frame_count : ℕ

/-- The merge of the three cleaned capability results into the response,
`orchestrator.py` lines 329–388. -/
def mergeVideoFrame (scene_result hazard_result audio_result : JObj)
    (ctx_stats : JVal) (frame_count : ℕ) : NavResponse :=
  let clear_path := asObj (jgetD scene_result "clear_path" (.obj []))
  { direction := pyOr (jget1 clear_path "direction") (jgetD scene_result "direction" (.s ""))
    distance_feet := pyOr (jget1 clear_path "distance_feet") (jgetD scene_result "distance_feet" (.num 0))
    hazards := allHazards scene_result hazard_result
    predicted_hazards := jgetD hazard_result "predicted_hazards" (.arr [])
    confidence := mergedConfidence (jnum scene_result "confidence") (jnum scene_result "confidence_0to1")
    audio := audio_result
    summary := pyOr (jgetD scene_result "summary" (.s "")) (jgetD scene_result "long_description" (.s ""))
    spatial_features := jgetD scene_result "spatial_features" (.arr [])
    hazard_action := jgetD hazard_result "recommended_action" (.s "")
    context_stats := ctx_stats
    frame_count := frame_count }

/-- `orchestrator.py` lines 247–254: each fanned-out result that is an
exception is replaced by the empty dict; successes pass through.  The three
calls run under `asyncio.gather(…, return_exceptions=True)`, so one branch's
failure neither cancels nor fails the siblings: each list position depends
only on its own outcome. -/
def cleanResults (results : List (Except String JObj)) : List JObj :=
  results.map fun r => match r with
    | .error _ => []
    | .ok v => v

/-- `orchestrator.py` lines 319–327 (ENRICH): the audio capability is invoked
a second time; on failure the first call's result is retained. -/
def enrichAudio (first : JObj) (second : Except String JObj) : JObj :=
  match second with
  | .ok a => a
  | .error _ => first

/-!
## Context-window manager (`context_manager.py`)

`MAX_CONTEXT_TOKENS = 1_048_576`, `PRUNE_TARGET = int(MAX_CONTEXT_TOKENS * 0.90)`.
`int(1048576 * 0.90)` evaluates to `943718` (the product truncates to the
integer part).  Token counts come from the external counting capability (or
its `max(1, len(text) // 4)` fallback), so they are non-negative; the embedded
`addObservation` takes the counted value as a parameter.
-/

/-- Hard context capacity (tokens). -/
def MAX_CONTEXT_TOKENS : ℕ := 1048576

/-- Soft token target: 90 % of the hard capacity, `int(1048576 * 0.90)`. -/
def PRUNE_TARGET : ℕ := 943718

/-- One turn / observation in the running context window. -/
structure ContextEntry where
  role : String
  text : String
  token_count : ℕ
  frame_index : ℕ
  entry_type : String
deriving DecidableEq

/-- Per-session context buffer with token accounting.  The Python `deque` is
a list whose head is the oldest entry (`popleft` removes the head, `append`
adds at the tail). -/
structure SessionContext where
  session_id : String
  entries : List ContextEntry
  total_tokens : ℕ
  frame_counter : ℕ
  landmark_entries : List ContextEntry
deriving DecidableEq

/-- A freshly created session buffer (`get_or_create` on an unknown id). -/
def emptySession (session_id : String) : SessionContext :=
  { session_id := session_id, entries := [], total_tokens := 0,
    frame_counter := 0, landmark_entries := [] }

/-- The token-count fallback `max(1, len(text) // 4)` used when the counting
capability fails (`count_tokens`, lines 75–78). -/
def countTokensEstimate (text : String) : ℕ := max 1 (text.length / 4)

/-- The pruning loop of `add_observation` (lines 116–118):
`while total_tokens + tokens > PRUNE_TARGET and entries: popleft; subtract`.
Returns the remaining entries and the remaining running total.  From
well-formed states the subtraction never truncates (the popped entry's count
is part of the running total). -/
def prune : List ContextEntry → ℕ → ℕ → List ContextEntry × ℕ
  | [], total, _ => ([], total)
  | e :: rest, total, tokens =>
    if total + tokens > PRUNE_TARGET then prune rest (total - e.token_count) tokens
    else (e :: rest, total)

/-- `add_observation` (lines 96–132), with the token count of the new text
supplied as the `tokens` parameter (it is produced by the external counting
capability or the estimate).  Returns the updated session buffer and the
appended entry. -/
def addObservation (ctx : SessionContext) (tokens : ℕ) (text : String)
    (entry_type : String) : SessionContext × ContextEntry :=
  let entry : ContextEntry :=
    { role := "model", text := text, token_count := tokens,
      frame_index := ctx.frame_counter, entry_type := entry_type }
  let pruned := prune ctx.entries ctx.total_tokens tokens
  ({ session_id := ctx.session_id
     entries := pruned.1 ++ [entry]
     total_tokens := pruned.2 + tokens
     frame_counter := ctx.frame_counter + 1
     landmark_entries :=
       if entry_type = "landmark" then ctx.landmark_entries ++ [entry]
       else ctx.landmark_entries }, entry)

/-- Python `l[-n:]` for `n > 0`: the most recent `n` elements. -/
def lastN {α : Type} (n : ℕ) (l : List α) : List α := l.drop (l.length - n)

/-- One rendered line, `f"[frame {e.frame_index}] {e.text}"`. -/
def renderEntry (e : ContextEntry) : String :=
  "[frame " ++ toString e.frame_index ++ "] " ++ e.text

/-- `build_context_string` (lines 138–165) up to the final `"\n".join`: the
list of parts appended in program order.  The observations section iterates
`list(ctx.entries)` — the rolling buffer, whatever the entry kinds.  Note the
Python guard `if max_entries:` is falsy for `0`, so `some 0` behaves like
`none`. -/
def buildContextParts (ctx : SessionContext) (max_entries : Option ℕ)
    (include_landmarks : Bool) : List String :=
  let landmarkParts :=
    if include_landmarks && !ctx.landmark_entries.isEmpty then
      "=== KNOWN LANDMARKS ===" :: (lastN 50 ctx.landmark_entries).map renderEntry ++ [""]
    else []
  let entries :=
    match max_entries with
    | none => ctx.entries
    | some n => if n = 0 then ctx.entries else lastN n ctx.entries
  let obsParts :=
    if !entries.isEmpty then
      "=== RECENT OBSERVATIONS ===" :: entries.map renderEntry
    else []
  landmarkParts ++ obsParts

/-- Python `"\n".join(parts)`. -/
def pyJoin (sep : String) : List String → String
  | [] => ""
  | [x] => x
  | x :: y :: rest => x ++ sep ++ pyJoin sep (y :: rest)

/-- `build_context_string`: the parts joined with newlines. -/
def buildContextString (ctx : SessionContext) (max_entries : Option ℕ)
    (include_landmarks : Bool) : String :=
  pyJoin "\n" (buildContextParts ctx max_entries include_landmarks)

/-- Sum of the token counts of a list of entries. -/
def sumTokens (es : List ContextEntry) : ℕ :=
  (es.map ContextEntry.token_count).sum

/-- Token accounting well-formedness: the running total equals the sum of the
buffered entries' counts.  It holds for fresh sessions and is preserved by
`addObservation`, so it holds for every reachable session state. -/
def WFContext (ctx : SessionContext) : Prop :=
  ctx.total_tokens = sumTokens ctx.entries

instance (ctx : SessionContext) : Decidable (WFContext ctx) := by
  unfold WFContext; infer_instance

/-- Total token count of the non-landmark entries in the rolling buffer. -/
def nonLandmarkTokens (ctx : SessionContext) : ℕ :=
  sumTokens (ctx.entries.filter fun e => e.entry_type != "landmark")

/-!
## Hazard agent temporal history (`agents/hazard_agent.py`)
-/

/-- One stored hazard frame: `{"timestamp": …, "frame_index": …, "hazards":
response.get("imminent_hazards", [])}` (lines 80–84). -/
structure HazardFrame where
  timestamp : ℚ
  frame_index : ℕ
  hazards : JVal

/-- Per-session state of `HazardAgent`: `_history[session_id]` (oldest first)
and `_frame_counter[session_id]`. -/
structure HazardAgentState where
  history : List HazardFrame
  frame_counter : ℕ

/-- Fresh per-session hazard state (missing dict keys default to `[]`/`0`). -/
def emptyHazardState : HazardAgentState := { history := [], frame_counter := 0 }

/-- The frames rendered into the prompt by `_get_temporal_context(session_id,
last_n)` (line 29: `for entry in history[-last_n:]`); an empty history
renders the fixed "No previous hazard history." message instead. -/
def temporalContextFrames (history : List HazardFrame) (last_n : ℕ := 5) :
    List HazardFrame :=
  lastN last_n history

/-- The state transition and supplied temporal context of `detect_hazards`
(lines 37–91): the prompt is built from `_get_temporal_context(session_id)`
— the **default** `last_n = 5` — then the response's imminent hazards are
appended to the history, which is trimmed to its last 30 frames, and the
frame counter is incremented.  `resp` is the capability's response and `now`
the wall-clock time of the append. -/
def detectHazardsStep (st : HazardAgentState) (resp : JObj) (now : ℚ) :
    List HazardFrame × HazardAgentState :=
  let supplied := temporalContextFrames st.history
  let appended := st.history ++
    [{ timestamp := now, frame_index := st.frame_counter,
       hazards := jgetD resp "imminent_hazards" (.arr []) }]
  let trimmed := if appended.length > 30 then lastN 30 appended else appended
  (supplied, { history := trimmed, frame_counter := st.frame_counter + 1 })

/-!
## Spatial memory (`spatial_memory.py`)

`record_landmark` awaits, in order: the durable store write
(`crud.save_landmark`), the cache write (`cache_landmark`) and the context
append (`ctx_mgr.add_observation`).  None of the three awaits is wrapped in a
`try/except` inside `record_landmark`, so an exception raised by any of them
propagates to the caller and skips the remaining steps.  Each await's outcome
is modelled as an `Except` parameter.
-/

/-- `record_landmark` (lines 48–102) as a function of the outcomes of its
three awaited effects, in program order: durable store, cache, context
append.  Returns the durable id on full success, the first raised error
otherwise. -/
def recordLandmark (durable : Except String ℕ) (cache : Except String Unit)
    (ctxAppend : Except String Unit) : Except String ℕ := do
  let lm_id ← durable
  let _ ← cache
  let _ ← ctxAppend
  pure lm_id

/-- One piece of recall evidence: a match tagged with its source
(`{"source": …, **match}`).  The payload is opaque here: the claims
considered do not inspect the matches' fields. -/
structure TaggedMatch (α : Type) where
  source : String
  payload : α

/-- The evidence-assembly of `recall` (lines 124–158, 189–194) as a function
of the three sub-query results: cache matches first (tagged `"cache"`), then
durable-store matches (tagged `"database"`), then — only when **both** `lat`
and `lon` were supplied — proximity matches (tagged `"proximity"`).  Returns
whether the proximity query was issued and the assembled `matches` list. -/
def recallAssemble {α : Type} (cacheRes dbRes geoRes : List α)
    (lat lon : Option ℚ) : Bool × List (TaggedMatch α) :=
  let ms := cacheRes.map (TaggedMatch.mk "cache") ++ dbRes.map (TaggedMatch.mk "database")
  if lat.isSome && lon.isSome then (true, ms ++ geoRes.map (TaggedMatch.mk "proximity"))
  else (false, ms)

/-- The evidence list returned to the caller: `"database_matches": matches[:10]`
(line 192). -/
def recallReturnedEvidence {α : Type} (cacheRes dbRes geoRes : List α)
    (lat lon : Option ℚ) : List (TaggedMatch α) :=
  (recallAssemble cacheRes dbRes geoRes lat lon).2.take 10

/-!
## Voice-command routing (`orchestrator.py` lines 408–425)

Python string primitives used by the branch, over `List Char`.  The inputs of
interest are ASCII, where `Char.toLower` agrees with Python's `str.lower`.
-/

/-- Python `str.lower()` (ASCII range). -/
def pyLower (s : String) : String := String.mk (s.data.map Char.toLower)

/-- Python substring containment `needle in hay`. -/
def containsSub : List Char → List Char → Bool
  | needle, [] => needle.isEmpty
  | needle, c :: rest => needle.isPrefixOf (c :: rest) || containsSub needle rest

/-- Scanning loop of Python `s.replace(pat, "")` for a non-empty pattern
`p :: ps`, with a structural fuel argument (any fuel at least the length of
the scanned list gives the loop's value: every step strictly shortens the
list). -/
def replaceDelAux (p : Char) (ps : List Char) : ℕ → List Char → List Char
  | 0, l => l
  | _ + 1, [] => []
  | fuel + 1, c :: rest =>
    if (p :: ps).isPrefixOf (c :: rest) then replaceDelAux p ps fuel (rest.drop ps.length)
    else c :: replaceDelAux p ps fuel rest

/-- Python `s.replace(pat, "")` for a non-empty pattern `p :: ps`: every
non-overlapping occurrence of the pattern, anywhere in the string, is
deleted, scanning left to right. -/
def replaceDel (p : Char) (ps : List Char) (l : List Char) : List Char :=
  replaceDelAux p ps l.length l

/-- Python whitespace test used by `str.strip()` (ASCII whitespace). -/
def isPySpace (c : Char) : Bool :=
  c = ' ' || c = '\t' || c = '\n' || c = '\r' || c = '\x0b' || c = '\x0c'

/-- Python `str.strip()`: drop whitespace from both ends. -/
def pyStrip (l : List Char) : List Char :=
  ((l.dropWhile isPySpace).reverse.dropWhile isPySpace).reverse

/-- Python `str.rstrip("?")`: drop **all** trailing `?` characters. -/
def pyRstripQ (l : List Char) : List Char :=
  (l.reverse.dropWhile (· = '?')).reverse

/-- The recall query derived by the voice_command branch (line 412):
`text.lower().replace("where was the", "").replace("where is the", "").strip().rstrip("?")`. -/
def deriveQuery (text : String) : String :=
  String.mk (pyRstripQ (pyStrip
    (replaceDel 'w' "here is the".data
      (replaceDel 'w' "here was the".data (pyLower text).data))))

/-- Where a voice_command turn is routed. -/
inductive VoiceRoute where
  | recallQuery (query : String)
  | nav (text : String)
deriving DecidableEq

/-- `true` exactly on the spatial-memory recall branch. -/
def VoiceRoute.isRecallRoute : VoiceRoute → Bool
  | .recallQuery _ => true
  | .nav _ => false

/-- The voice_command branch of `orchestrate` (lines 408–425): recall when
`"where" in text.lower()`, generic navigation otherwise. -/
def voiceRoute (text : String) : VoiceRoute :=
  if containsSub "where".data (pyLower text).data then .recallQuery (deriveQuery text)
  else .nav text

/-- Modelled from the claim's words (claim C10), for comparison with
`deriveQuery`: the query obtained by deleting the literal **prefixes**
"where was the" and "where is the", stripping surrounding whitespace, and
removing **a** (single) trailing "?". -/
def claimDeriveQuery (text : String) : String :=
  let t := (pyLower text).data
  let t1 := if "where was the".data.isPrefixOf t then t.drop 13 else t
  let t2 := if "where is the".data.isPrefixOf t1 then t1.drop 12 else t1
  let t3 := pyStrip t2
  String.mk (if t3.getLast? = some '?' then t3.dropLast else t3)

/-- Modelled from the claim's words (claim C8), for comparison with
`buildContextParts`: a rendering whose second section holds only the
**non-landmark** entries of the rolling buffer. -/
def claimBuildContextParts (ctx : SessionContext) (max_entries : Option ℕ)
    (include_landmarks : Bool) : List String :=
  let landmarkParts :=
    if include_landmarks && !ctx.landmark_entries.isEmpty then
      "=== KNOWN LANDMARKS ===" :: (lastN 50 ctx.landmark_entries).map renderEntry ++ [""]
    else []
  let nonLandmark := ctx.entries.filter fun e => e.entry_type != "landmark"
  let entries :=
    match max_entries with
    | none => nonLandmark
    | some n => if n = 0 then nonLandmark else lastN n nonLandmark
  let obsParts :=
    if !entries.isEmpty then
      "=== RECENT OBSERVATIONS ===" :: entries.map renderEntry
    else []
  landmarkParts ++ obsParts

/-!
## Lemmas: token accounting of the context window
-/

theorem sumTokens_nil : sumTokens [] = 0 := rfl

theorem sumTokens_cons (e : ContextEntry) (es : List ContextEntry) :
    sumTokens (e :: es) = e.token_count + sumTokens es := by
  simp [sumTokens]

theorem sumTokens_append (a bl : List ContextEntry) :
    sumTokens (a ++ bl) = sumTokens a + sumTokens bl := by
  simp [sumTokens]

theorem sumTokens_filter_le (p : ContextEntry → Bool) (es : List ContextEntry) :
    sumTokens (es.filter p) ≤ sumTokens es := by
  induction es with
  | nil => simp [sumTokens]
  | cons e rest ih =>
    rw [List.filter_cons, sumTokens_cons]
    by_cases h : p e
    · rw [if_pos h, sumTokens_cons]; omega
    · rw [if_neg h]; omega

/-- The pruning loop keeps the running total equal to the sum of the
remaining entries, and stops only when either the new entry fits under the
soft target or the buffer is exhausted. -/
theorem prune_spec (tokens : ℕ) : ∀ (entries : List ContextEntry) (total : ℕ),
    total = sumTokens entries →
    (prune entries total tokens).2 = sumTokens (prune entries total tokens).1 ∧
    ((prune entries total tokens).2 + tokens ≤ PRUNE_TARGET ∨
      (prune entries total tokens).1 = []) := by
  intro entries
  induction entries with
  | nil =>
    intro total htot
    rw [sumTokens_nil] at htot
    exact ⟨by simpa [prune] using htot, Or.inr rfl⟩
  | cons e rest ih =>
    intro total htot
    rw [sumTokens_cons] at htot
    by_cases h : total + tokens > PRUNE_TARGET
    · have hrec := ih (total - e.token_count) (by omega)
      rw [prune, if_pos h]
      exact hrec
    · rw [prune, if_neg h]
      refine ⟨?_, Or.inl (by omega)⟩
      show total = sumTokens (e :: rest)
      rw [sumTokens_cons]; omega

/-- Token accounting is preserved by `addObservation`, so every session state
reachable from a fresh session is well-formed. -/
theorem addObservation_preserves_wf (ctx : SessionContext) (tokens : ℕ)
    (text entry_type : String) (hwf : WFContext ctx) :
    WFContext (addObservation ctx tokens text entry_type).1 := by
  have h := (prune_spec tokens ctx.entries ctx.total_tokens hwf).1
  simp only [WFContext, addObservation, sumTokens_append, sumTokens_cons, sumTokens_nil]
  omega

theorem wf_emptySession (sid : String) : WFContext (emptySession sid) := rfl

/-- Claim C1 (amended): for every well-formed session buffer and every call
to `addObservation` whose new entry's token count is at most the soft token
target (90 % of the hard capacity, `PRUNE_TARGET`), immediately after the
call the total token count of the non-landmark entries in the session's
buffer is at most the soft target; eviction of the oldest buffer entries is
performed before the new entry is appended.  (As stated the claim fails when
a single new entry's count exceeds the soft target, and eviction does not
skip landmark-kind entries — see claim C2.) -/
theorem addObservation_nonlandmark_bound (ctx : SessionContext) (tokens : ℕ)
    (text entry_type : String) (hwf : WFContext ctx)
    (hle : tokens ≤ PRUNE_TARGET) :
    nonLandmarkTokens (addObservation ctx tokens text entry_type).1 ≤ PRUNE_TARGET := by
  obtain ⟨hsum, hstop⟩ := prune_spec tokens ctx.entries ctx.total_tokens hwf
  have h1 : sumTokens (List.filter (fun e => e.entry_type != "landmark")
      (prune ctx.entries ctx.total_tokens tokens).1) ≤
      (prune ctx.entries ctx.total_tokens tokens).2 := by
    rw [hsum]; exact sumTokens_filter_le _ _
  have h2 : sumTokens (List.filter (fun e => e.entry_type != "landmark")
      [{ role := "model", text := text, token_count := tokens,
         frame_index := ctx.frame_counter, entry_type := entry_type }]) ≤ tokens := by
    by_cases h : entry_type = "landmark" <;>
      simp [List.filter_cons, h, sumTokens_cons, sumTokens_nil]
  simp only [nonLandmarkTokens, addObservation, List.filter_append, sumTokens_append]
  rcases hstop with h3 | h3
  · omega
  · rw [h3, List.filter_nil, sumTokens_nil] at h1 ⊢
    omega

/-- Witness for claim C1: the amended theorem applied to a fresh session and
a 5-token observation. -/
theorem addObservation_nonlandmark_bound_witness :
    WFContext (emptySession "s1") ∧ (5 : ℕ) ≤ PRUNE_TARGET ∧
    nonLandmarkTokens
      (addObservation (emptySession "s1") 5 "curb on the left" "observation").1
      ≤ PRUNE_TARGET :=
  ⟨rfl, by decide,
    addObservation_nonlandmark_bound (emptySession "s1") 5 "curb on the left"
      "observation" rfl (by decide)⟩

/-- Counterexample to claim C1 as stated: a single `addObservation` whose new
entry counts `PRUNE_TARGET + 1` tokens leaves the non-landmark total of the
buffer strictly above the soft target — the eviction loop stops once the
buffer is empty, so the new entry itself can violate the bound. -/
theorem addObservation_soft_target_violated :
    PRUNE_TARGET < nonLandmarkTokens
      (addObservation (emptySession "s1") (PRUNE_TARGET + 1) "big observation"
        "observation").1 := by
  decide

/-- `addObservation` of an observation-kind entry leaves the separate
landmark list untouched. -/
theorem addObservation_keeps_landmark_list (c : SessionContext) (tokens : ℕ)
    (text : String) :
    ((addObservation c tokens text "observation").1).landmark_entries
      = c.landmark_entries := by
  simp [addObservation]

/-- Any sequence of observation-kind additions leaves the separate landmark
list untouched. -/
theorem obsFold_keeps_landmark_list (adds : List (ℕ × String)) :
    ∀ c : SessionContext,
    (adds.foldl (fun c pr => (addObservation c pr.1 pr.2 "observation").1)
        c).landmark_entries = c.landmark_entries := by
  induction adds with
  | nil => intro c; rfl
  | cons a rest ih =>
    intro c
    rw [List.foldl_cons, ih, addObservation_keeps_landmark_list]

/-- Claim C2 (amended): after `addObservation(s1, "fountain", "landmark")`
followed by any number of observation-kind additions (of any token counts),
the separate never-pruned landmark list still holds the landmark, so
`buildContextString(s1, includeLandmarks=true)` still contains the
"fountain" line — even though eviction may remove the landmark-kind entry
from the rolling buffer itself. -/
theorem landmark_text_survives_context_string (t : ℕ) (adds : List (ℕ × String)) :
    "[frame 0] fountain" ∈ buildContextParts
      (adds.foldl (fun c pr => (addObservation c pr.1 pr.2 "observation").1)
        ((addObservation (emptySession "s1") t "fountain" "landmark").1)) none true := by
  have hlm : (adds.foldl (fun c pr => (addObservation c pr.1 pr.2 "observation").1)
      ((addObservation (emptySession "s1") t "fountain" "landmark").1)).landmark_entries
      = [{ role := "model", text := "fountain", token_count := t,
           frame_index := 0, entry_type := "landmark" }] := by
    rw [obsFold_keeps_landmark_list]
    rfl
  have hr : renderEntry { role := "model", text := "fountain",
                          token_count := t, frame_index := 0,
                          entry_type := "landmark" } = "[frame 0] fountain" := by
    show "[frame " ++ toString (0 : ℕ) ++ "] " ++ "fountain" = "[frame 0] fountain"
    decide
  simp only [buildContextParts, hlm, lastN]
  simp [hr]

/-- Counterexample to claim C2 as stated: `addObservation(s1, "fountain",
"landmark")` followed by one observation addition large enough to trigger
eviction removes the landmark-kind entry from the rolling buffer — eviction
does **not** restrict itself to observation-kind entries (only the separate
landmark list retains the landmark). -/
theorem landmark_entry_evicted_from_buffer :
    ((addObservation (emptySession "s1") 2 "fountain" "landmark").1.entries.map
        ContextEntry.entry_type = ["landmark"]) ∧
    ((addObservation ((addObservation (emptySession "s1") 2 "fountain" "landmark").1)
        PRUNE_TARGET "big" "observation").1.entries.map ContextEntry.entry_type
        = ["observation"]) ∧
    ((addObservation ((addObservation (emptySession "s1") 2 "fountain" "landmark").1)
        PRUNE_TARGET "big" "observation").1.landmark_entries.map ContextEntry.text
        = ["fountain"]) := by
  decide

/-!
## Claims about the video_frame merge
-/

/-- Claim C3 (amended): the merged video_frame `confidence` reads the scene
result by key precedence `confidence` then `confidence_0to1` (default 0.85)
and clamps the result from above to 0.95; whenever the selected source value
is non-negative, the merged confidence lies in [0, 0.95].  (As stated the
claim fails: the code has no lower clamp, so a negative source value passes
through.) -/
theorem video_confidence_clamped (scene hazard audio : JObj) (cs : JVal) (fc : ℕ)
    (h : 0 ≤ (jnum scene "confidence").getD ((jnum scene "confidence_0to1").getD (85 / 100))) :
    (mergeVideoFrame scene hazard audio cs fc).confidence
      = min ((jnum scene "confidence").getD ((jnum scene "confidence_0to1").getD (85 / 100)))
          (95 / 100) ∧
    0 ≤ (mergeVideoFrame scene hazard audio cs fc).confidence ∧
    (mergeVideoFrame scene hazard audio cs fc).confidence ≤ 95 / 100 :=
  ⟨rfl, le_min h (by norm_num), min_le_right _ _⟩

/-- Witness for claim C3: the amended theorem applied to a scene result whose
`confidence` is 1/2. -/
theorem video_confidence_clamped_witness :
    0 ≤ (mergeVideoFrame [("confidence", JVal.num (1 / 2))] [] [] JVal.null 0).confidence ∧
    (mergeVideoFrame [("confidence", JVal.num (1 / 2))] [] [] JVal.null 0).confidence ≤ 95 / 100 :=
  ⟨(video_confidence_clamped [("confidence", JVal.num (1 / 2))] [] [] JVal.null 0
      (by norm_num [jnum, jget])).2.1,
   (video_confidence_clamped [("confidence", JVal.num (1 / 2))] [] [] JVal.null 0
      (by norm_num [jnum, jget])).2.2⟩

/-- Counterexample to claim C3 as stated: with `confidence = −1` in the scene
result, the merged response's confidence is −1, strictly below 0 — only the
upper clamp `min(…, 0.95)` is applied. -/
theorem video_confidence_negative_passes :
    (mergeVideoFrame [("confidence", JVal.num (-1))] [] [] JVal.null 0).confidence = -1 ∧
    (-1 : ℚ) < 0 := by
  constructor
  · show mergedConfidence (jnum [("confidence", JVal.num (-1))] "confidence")
      (jnum [("confidence", JVal.num (-1))] "confidence_0to1") = -1
    norm_num [jnum, jget, mergedConfidence]
  · norm_num

/-- Claim C4 (confirmed): in a video_frame turn where the scene branch raises
and the hazard and audio branches succeed, the failed branch is substituted
with the empty dict (`gather(…, return_exceptions=True)` neither cancels nor
fails the siblings), and the merged response keeps the hazard and audio
contributions while direction defaults to the empty string and distance to
zero; the merge is a total function, so no exception escapes the turn. -/
theorem scene_failure_isolated (e : String) (hazard audio : JObj) (cs : JVal) (fc : ℕ) :
    cleanResults [.error e, .ok hazard, .ok audio] = [[], hazard, audio] ∧
    (mergeVideoFrame [] hazard audio cs fc).direction = .s "" ∧
    (mergeVideoFrame [] hazard audio cs fc).distance_feet = .num 0 ∧
    (mergeVideoFrame [] hazard audio cs fc).audio = audio ∧
    (mergeVideoFrame [] hazard audio cs fc).hazards = hazardsFromHazard hazard ∧
    (mergeVideoFrame [] hazard audio cs fc).predicted_hazards
      = jgetD hazard "predicted_hazards" (.arr []) ∧
    (mergeVideoFrame [] hazard audio cs fc).hazard_action
      = jgetD hazard "recommended_action" (.s "") := by
  refine ⟨rfl, rfl, rfl, rfl, ?_, rfl, rfl⟩
  show allHazards [] hazard = hazardsFromHazard hazard
  simp [allHazards, hazardsFromObstacles, hazardsFromFloor, jgetD, jget, asArr, dictItems]

/-- Claim C6 (confirmed): the NORMALIZE step reads merged fields by key
precedence — with nested `clear_path.direction = "left"` and
`clear_path.distance_feet = 5` and no flat `direction` key, the merged
direction is "left" and distance is 5; and with a flat `hazards` key in place
of `imminent_hazards`, the hazard entries still reach the merged hazards list
(mapped to the canonical shape, ahead of the scene contributions). -/
theorem normalize_precedence (scene hazard audio : JObj) (cp : JObj)
    (hs : List JVal) (cs : JVal) (fc : ℕ)
    (hcp : jget scene "clear_path" = some (.obj cp))
    (hdir : jget cp "direction" = some (.s "left"))
    (hdist : jget cp "distance_feet" = some (.num 5))
    (hflat : jget scene "direction" = none)
    (him : jget hazard "imminent_hazards" = none)
    (hhz : jget hazard "hazards" = some (.arr hs)) :
    (mergeVideoFrame scene hazard audio cs fc).direction = .s "left" ∧
    (mergeVideoFrame scene hazard audio cs fc).distance_feet = .num 5 ∧
    (mergeVideoFrame scene hazard audio cs fc).hazards
      = (dictItems hs).map mapImminent ++ hazardsFromObstacles scene
        ++ hazardsFromFloor scene := by
  refine ⟨?_, ?_, ?_⟩
  · show pyOr (jget1 (asObj (jgetD scene "clear_path" (.obj []))) "direction")
      (jgetD scene "direction" (.s "")) = .s "left"
    simp [jgetD, jget1, hcp, hdir, asObj, pyOr, truthy]
  · show pyOr (jget1 (asObj (jgetD scene "clear_path" (.obj []))) "distance_feet")
      (jgetD scene "distance_feet" (.num 0)) = .num 5
    simp [jgetD, jget1, hcp, hdist, asObj, pyOr, truthy]
  · show allHazards scene hazard = _
    simp [allHazards, hazardsFromHazard, hazardSourceList, jgetD, him, hhz, asArr]

/-- Witness for claim C6: the theorem applied to the concrete scene result
`{"clear_path": {"direction": "left", "distance_feet": 5}}` and the concrete
hazard result `{"hazards": [{"type": "bicycle"}]}`. -/
theorem normalize_precedence_witness :
    (mergeVideoFrame [("clear_path", JVal.obj [("direction", JVal.s "left"), ("distance_feet", JVal.num 5)])]
        [("hazards", JVal.arr [JVal.obj [("type", JVal.s "bicycle")]])] [] JVal.null 0).direction
      = .s "left" ∧
    (mergeVideoFrame [("clear_path", JVal.obj [("direction", JVal.s "left"), ("distance_feet", JVal.num 5)])]
        [("hazards", JVal.arr [JVal.obj [("type", JVal.s "bicycle")]])] [] JVal.null 0).distance_feet
      = .num 5 ∧
    (mergeVideoFrame [("clear_path", JVal.obj [("direction", JVal.s "left"), ("distance_feet", JVal.num 5)])]
        [("hazards", JVal.arr [JVal.obj [("type", JVal.s "bicycle")]])] [] JVal.null 0).hazards
      = (dictItems [JVal.obj [("type", JVal.s "bicycle")]]).map mapImminent
        ++ hazardsFromObstacles [("clear_path", JVal.obj [("direction", JVal.s "left"), ("distance_feet", JVal.num 5)])]
        ++ hazardsFromFloor [("clear_path", JVal.obj [("direction", JVal.s "left"), ("distance_feet", JVal.num 5)])] :=
  normalize_precedence _ _ [] _ _ JVal.null 0 rfl rfl rfl rfl rfl rfl

/-!
## Claims about spatial memory
-/

/-- Claim C5 (amended): `record_landmark` awaits the durable store first and
a durable-store failure propagates as a hard error; on durable success the
fast-cache write is awaited **without** a `try/except`, so a cache failure
also propagates to the caller (it is not swallowed inside `record_landmark`;
the orchestrator's call sites catch it), as does a context-append failure;
when all three steps succeed the function returns the durable store's
generated id. -/
theorem recordLandmark_effect_order (eDur eCache eCtx : String) (lm_id : ℕ)
    (cache ctxAppend : Except String Unit) :
    recordLandmark (.error eDur) cache ctxAppend = .error eDur ∧
    recordLandmark (.ok lm_id) (.error eCache) ctxAppend = .error eCache ∧
    recordLandmark (.ok lm_id) (.ok ()) (.error eCtx) = .error eCtx ∧
    recordLandmark (.ok lm_id) (.ok ()) (.ok ()) = .ok lm_id :=
  ⟨rfl, rfl, rfl, rfl⟩

/-- Counterexample to claim C5 as stated: with the durable write succeeding
(id 7) and the cache write failing, `record_landmark` raises the cache error
instead of returning the durable id — the cache failure is not swallowed. -/
theorem recordLandmark_cache_failure_propagates :
    recordLandmark (.ok 7) (.error "redis down") (.ok ()) = .error "redis down" ∧
    recordLandmark (.ok 7) (.error "redis down") (.ok ()) ≠ .ok 7 :=
  ⟨rfl, fun h => Except.noConfusion h⟩

/-- Claim C9 (confirmed): with no geo coordinates supplied, `recall` issues
no proximity query and its evidence comes only from the cache and
durable-store matches; in all cases the returned evidence is `matches[:10]`
(at most 10 entries), assembled as cache matches, then durable matches, then
proximity matches, each tagged with its source and with no cross-source
deduplication (plain concatenation). -/
theorem recall_evidence_assembly {α : Type} (cacheRes dbRes geoRes : List α)
    (lat lon : Option ℚ) :
    (recallAssemble cacheRes dbRes geoRes none none).1 = false ∧
    (recallAssemble cacheRes dbRes geoRes none none).2
      = cacheRes.map (TaggedMatch.mk "cache") ++ dbRes.map (TaggedMatch.mk "database") ∧
    ((recallAssemble cacheRes dbRes geoRes none none).2.map TaggedMatch.source).all
      (fun src => src == "cache" || src == "database") = true ∧
    (recallAssemble cacheRes dbRes geoRes lat lon).1 = (lat.isSome && lon.isSome) ∧
    (recallAssemble cacheRes dbRes geoRes lat lon).2
      = cacheRes.map (TaggedMatch.mk "cache") ++ dbRes.map (TaggedMatch.mk "database")
        ++ (if lat.isSome && lon.isSome then geoRes.map (TaggedMatch.mk "proximity") else []) ∧
    (recallReturnedEvidence cacheRes dbRes geoRes lat lon).length ≤ 10 := by
  refine ⟨rfl, rfl, ?_, ?_, ?_, ?_⟩
  · show ((cacheRes.map (TaggedMatch.mk "cache")
      ++ dbRes.map (TaggedMatch.mk "database")).map TaggedMatch.source).all _ = true
    simp [List.all_append, List.all_map, Function.comp]
  · unfold recallAssemble
    split <;> simp_all
  · unfold recallAssemble
    split <;> simp_all
  · exact List.length_take_le 10 _

/-!
## Claims about the hazard agent's temporal history
-/

theorem getLast?_append_singleton {α : Type} (l : List α) (a : α) (k : ℕ)
    (h : k ≤ l.length) : ((l ++ [a]).drop k).getLast? = some a := by
  rw [List.drop_append_of_le_length h, List.getLast?_concat]

/-- Claim C7 (amended): before each hazard-detection call the coordinator
supplies the capability with the session's last **5** stored hazard frames
(`_get_temporal_context` is called with its default `last_n = 5`, not 30);
after the call the new result is appended to the rolling history, the oldest
entries are trimmed so the stored history never exceeds 30 frames, the new
frame stays last, and the frame counter advances by one. -/
theorem detectHazards_history_bounds (st : HazardAgentState) (resp : JObj) (now : ℚ) :
    (detectHazardsStep st resp now).1 = lastN 5 st.history ∧
    (detectHazardsStep st resp now).2.history.length ≤ 30 ∧
    (detectHazardsStep st resp now).2.history.getLast? =
      some { timestamp := now, frame_index := st.frame_counter,
             hazards := jgetD resp "imminent_hazards" (.arr []) } ∧
    (detectHazardsStep st resp now).2.frame_counter = st.frame_counter + 1 := by
  refine ⟨rfl, ?_, ?_, rfl⟩
  · simp only [detectHazardsStep]
    split_ifs with h
    · simp only [lastN, List.length_drop]
      omega
    · omega
  · simp only [detectHazardsStep]
    split_ifs with h
    · unfold lastN
      rw [getLast?_append_singleton]
      simp only [List.length_append, List.length_cons, List.length_nil] at h ⊢
      omega
    · rw [List.getLast?_concat]

/-- Counterexample to claim C7 as stated: with six hazard frames stored, the
context supplied to the capability by `detect_hazards` holds only the most
recent five of them, not the last 30 stored frames (which would be all
six). -/
theorem temporal_context_is_five_not_thirty :
    (detectHazardsStep
      { history := [{ timestamp := 0, frame_index := 0, hazards := .arr [] },
                    { timestamp := 1, frame_index := 1, hazards := .arr [] },
                    { timestamp := 2, frame_index := 2, hazards := .arr [] },
                    { timestamp := 3, frame_index := 3, hazards := .arr [] },
                    { timestamp := 4, frame_index := 4, hazards := .arr [] },
                    { timestamp := 5, frame_index := 5, hazards := .arr [] }],
        frame_counter := 6 } [] 6).1.length = 5 ∧
    (lastN 30 ([{ timestamp := 0, frame_index := 0, hazards := JVal.arr [] },
                { timestamp := 1, frame_index := 1, hazards := JVal.arr [] },
                { timestamp := 2, frame_index := 2, hazards := JVal.arr [] },
                { timestamp := 3, frame_index := 3, hazards := JVal.arr [] },
                { timestamp := 4, frame_index := 4, hazards := JVal.arr [] },
                { timestamp := 5, frame_index := 5, hazards := JVal.arr [] }] :
        List HazardFrame)).length = 6 := by
  exact ⟨rfl, rfl⟩

/-!
## Claims about `build_context_string` and voice-command routing
-/

/-- Claim C8 (amended): `buildContextString` renders two sections: the
landmark section first — the most recent up-to-50 entries of the separate
landmark list, oldest-to-newest within that slice (the slice is a suffix of
the list) — then a blank separator, then the most recent `maxEntries`
entries of the rolling buffer **regardless of kind** (landmark-kind entries
still resident in the buffer appear here too; all buffer entries when
`maxEntries` is unspecified or zero), each line tagged with its frame
index. -/
theorem buildContextParts_structure (ctx : SessionContext) (max_entries : Option ℕ) :
    buildContextParts ctx max_entries true
      = (if ctx.landmark_entries.isEmpty then []
         else "=== KNOWN LANDMARKS ===" ::
           (lastN 50 ctx.landmark_entries).map renderEntry ++ [""])
        ++ (if (match max_entries with
                | none => ctx.entries
                | some n => if n = 0 then ctx.entries else lastN n ctx.entries).isEmpty
            then []
            else "=== RECENT OBSERVATIONS ===" ::
              (match max_entries with
               | none => ctx.entries
               | some n => if n = 0 then ctx.entries else lastN n ctx.entries).map renderEntry) ∧
    lastN 50 ctx.landmark_entries <:+ ctx.landmark_entries ∧
    (match max_entries with
     | none => ctx.entries
     | some n => if n = 0 then ctx.entries else lastN n ctx.entries) <:+ ctx.entries := by
  refine ⟨?_, List.drop_suffix _ _, ?_⟩
  · simp only [buildContextParts, Bool.true_and]
    by_cases h1 : ctx.landmark_entries.isEmpty <;> simp [h1]
  · cases max_entries with
    | none => exact List.suffix_refl _
    | some n =>
      show (if n = 0 then ctx.entries else lastN n ctx.entries) <:+ ctx.entries
      by_cases h : n = 0
      · rw [if_pos h]
      · rw [if_neg h]; exact List.drop_suffix _ _

/-- Counterexample to claim C8 as stated: for a buffer holding exactly one
landmark-kind entry, the observations section of the rendering contains that
landmark entry's line too — the second section iterates the whole rolling
buffer, not only the non-landmark entries as the claim describes. -/
theorem observations_section_includes_landmarks :
    buildContextParts (addObservation (emptySession "s1") 2 "fountain" "landmark").1 none true
      = ["=== KNOWN LANDMARKS ===", "[frame 0] fountain", "",
         "=== RECENT OBSERVATIONS ===", "[frame 0] fountain"] ∧
    claimBuildContextParts (addObservation (emptySession "s1") 2 "fountain" "landmark").1 none true
      = ["=== KNOWN LANDMARKS ===", "[frame 0] fountain", ""] ∧
    buildContextParts (addObservation (emptySession "s1") 2 "fountain" "landmark").1 none true
      ≠ claimBuildContextParts (addObservation (emptySession "s1") 2 "fountain" "landmark").1 none true := by
  decide

/-- Claim C10 (amended): a voice_command turn takes the spatial-memory recall
path iff the lowercased text contains the substring "where" anywhere (so
"go anywhere" is redirected to recall, with query "go anywhere"); the recall
query is derived by deleting **every** occurrence of "where was the" and then
of "where is the" anywhere in the lowercased text, stripping surrounding
whitespace, and removing **all** trailing "?" characters. -/
theorem voiceRoute_recall_iff (text : String) :
    (voiceRoute text).isRecallRoute = containsSub "where".data (pyLower text).data ∧
    voiceRoute "go anywhere" = .recallQuery "go anywhere" ∧
    voiceRoute "Where is the fountain??" = .recallQuery "fountain" ∧
    voiceRoute "stop now" = .nav "stop now" := by
  refine ⟨?_, by decide, by decide, by decide⟩
  unfold voiceRoute
  split_ifs with h <;> simp [VoiceRoute.isRecallRoute, h]

/-- Counterexample to claim C10 as stated: for the command "tell me where is
the fountain" the code deletes the substring "where is the" from the middle
of the text (Python `str.replace`, not prefix deletion), yielding the query
"tell me  fountain"; the claim's prefix-deletion derivation would leave the
text unchanged. -/
theorem deriveQuery_not_prefix_deletion :
    deriveQuery "tell me where is the fountain" = "tell me  fountain" ∧
    claimDeriveQuery "tell me where is the fountain" = "tell me where is the fountain" ∧
    deriveQuery "tell me where is the fountain"
      ≠ claimDeriveQuery "tell me where is the fountain" := by
  decide

end NaviSound
